import Mathlib

/-!
Shallow embedding of the api-minetopia control plane (Fastify + Supabase).

The handlers in `src/routes/{servers,billing,internal,account}.ts` are
embedded as pure functions over an explicit database state.  Supabase
queries are modelled as list operations (`.single()` = "exactly one
matching row"); outcomes of external effects (the durable insert under a
uniqueness constraint, the node-agent HTTP call, the Supabase admin API)
are passed in as explicit oracle parameters so races and failures are
expressible.  Statuses are the literal strings the code compares against.
-/

namespace Minetopia

/-- A row of the `plans` table. -/
structure Plan where
  id : Nat
  name : String
  price_cents : Nat
  ram_mb : Nat
  cpu_limit : Nat
  disk_gb : Nat
  is_active : Bool
deriving DecidableEq, Repr

/-- A row of the `nodes` table.  `allocated_ram_mb` is an `Int` because the
delete path computes `Math.max(0, fresh - ram)` over JS numbers. -/
structure Node where
  id : Nat
  ip : String
  agent_port : Nat
  agent_token : String
  status : String
  total_ram_mb : Int
  allocated_ram_mb : Int
  max_servers : Nat
deriving DecidableEq, Repr

/-- A row of the `servers` table. -/
structure Server where
  id : Nat
  user_id : Nat
  node_id : Nat
  plan_id : Nat
  name : String
  port : Nat
  ram_mb : Nat
  cpu_limit : Nat
  disk_gb : Nat
  mc_version : String
  server_type : String
  status : String
  lxc_ip : Option String
deriving DecidableEq, Repr

/-- A row of the `server_logs` table. -/
structure ServerLog where
  server_id : Nat
  action : String
  triggered_by : Nat
deriving DecidableEq, Repr

/-- The persistent store the routes read and write. -/
structure DB where
  plans : List Plan
  nodes : List Node
  servers : List Server
  server_logs : List ServerLog
deriving DecidableEq, Repr

/-- Supabase `.single()`: succeeds iff exactly one row matches the filter. -/
def findUnique {α : Type} (l : List α) (p : α → Bool) : Option α :=
  match l.filter p with
  | [x] => some x
  | _ => none

/-- An HTTP reply: either a payload or `reply.status(code).send({error})`. -/
inductive Resp (α : Type) where
  | ok (a : α)
  | err (status : Nat) (msg : String)
deriving DecidableEq, Repr

/-! ### Port allocator (servers.ts, create step 3)

`let port = requestedPort && !takenPorts.has(requestedPort) ? requestedPort
: 25565; while (takenPorts.has(port)) port++`.

`probePort` is the `while` loop.  The candidate strictly increases, so the
occurrence matched at each step (equal to the old candidate, hence below
every later candidate) can never be queried again; removing it keeps the
recursion structural on a fuel that starts at `taken.length` (list length
and fuel decrease in lockstep, so the fuel never runs out before the loop
would have stopped), and the computed port is the loop's. -/
def probePort (fuel : Nat) (taken : List Nat) (p : Nat) : Nat :=
  match fuel with
  | 0 => p
  | fuel + 1 =>
    if taken.contains p then probePort fuel (taken.erase p) (p + 1) else p

/-- Ports already bound to servers on the given node, as read by the create
flow (`.from('servers').select('port').eq('node_id', node.id)`). -/
def takenPortsOn (db : DB) (nodeId : Nat) : List Nat :=
  (db.servers.filter (fun s => s.node_id == nodeId)).map (fun s => s.port)

/-- The full "find a free port" step of the create flow. -/
def allocatePort (db : DB) (nodeId : Nat) (requested : Option Nat) : Nat :=
  let taken := takenPortsOn db nodeId
  let start :=
    match requested with
    | some r => if taken.contains r then 25565 else r
    | none => 25565
  probePort taken.length taken start

/-! ### Create flow (servers.ts POST /) -/

/-- Outcome of one `supabase.from('servers').insert(...)` attempt.  The
uniqueness constraint on (node, port) is the serialization point against
concurrent creates, so the outcome of each attempt is an oracle indexed by
the attempt number (`insertErr.code === '23505'` is the unique-violation
case). -/
inductive InsertOutcome where
  | ok
  | uniqueViolation
  | otherError (msg : String)
deriving DecidableEq, Repr

/-- Result of the bounded insert-retry loop. -/
inductive InsertLoopResult where
  | inserted (port : Nat)
  | exhausted
  | dbError (msg : String)
deriving DecidableEq, Repr

/-- `while (!server && insertAttempts < 10) { ...; if 23505 { port++;
insertAttempts++; continue }; return 500 }`.  `remaining` is
`10 - insertAttempts` (so the guard `insertAttempts < 10` is
`remaining > 0`); the flow starts it at 10 with `attempts = 0`. -/
def insertLoop (ins : Nat → InsertOutcome) :
    Nat → Nat → Nat → InsertLoopResult
  | 0, _, _ => .exhausted
  | remaining + 1, attempts, port =>
    match ins attempts with
    | .ok => .inserted port
    | .uniqueViolation => insertLoop ins remaining (attempts + 1) (port + 1)
    | .otherError m => .dbError m

/-- The create request body after zod parsing (`CreateServerSchema`). -/
structure CreateReq where
  name : String
  plan_id : Nat
  mc_version : String
  server_type : String
  port : Option Nat
deriving DecidableEq, Repr

/-- `CreateServerSchema` constraints: name length 3–32, server_type in the
closed enum, optional port in [1024, 65535]. -/
def validCreateReq (r : CreateReq) : Bool :=
  3 ≤ r.name.length && r.name.length ≤ 32 &&
  r.server_type == "vanilla" &&
  (match r.port with
   | some p => 1024 ≤ p && p ≤ 65535
   | none => true)

/-- Node selection: `.eq('status','online').order('allocated_ram_mb',
ascending).limit(1).single()` — the first online node with minimal
allocated RAM (stable sort keeps the earliest row on ties). -/
def pickNode (nodes : List Node) : Option Node :=
  (nodes.filter (fun n => n.status == "online")).foldl
    (fun acc n =>
      match acc with
      | none => some n
      | some m => if n.allocated_ram_mb < m.allocated_ram_mb then some n else some m)
    none

/-- The 502 body sent when the agent's `/servers/create` call throws. -/
def agentUnreachableMsg (node : Node) : String :=
  "Agent unreachable (http://" ++ node.ip ++ ":" ++ toString node.agent_port ++
    ") — is the agent running?"

/-- The server row the create flow inserts (status `installing`). -/
def newServerRow (newId uid : Nat) (node : Node) (plan : Plan)
    (req : CreateReq) (port : Nat) : Server :=
  { id := newId, user_id := uid, node_id := node.id, plan_id := plan.id,
    name := req.name, port := port, ram_mb := plan.ram_mb,
    cpu_limit := plan.cpu_limit, disk_gb := plan.disk_gb,
    mc_version := req.mc_version, server_type := req.server_type,
    status := "installing", lxc_ip := none }

/-- POST /api/servers (create flow).  `ins` is the per-attempt insert
outcome, `agentOk` whether the agent's `/servers/create` call succeeds,
`newId` the id the store assigns to the inserted row.  Note: the plan
lookup has no `is_active` filter, and the RAM reservation adds
`plan.ram_mb` to the `allocated_ram_mb` snapshot read at node-selection
time. -/
def createServer (db : DB) (uid : Nat) (req : CreateReq)
    (ins : Nat → InsertOutcome) (agentOk : Bool) (newId : Nat) :
    Resp Server × DB :=
  if !validCreateReq req then (.err 400 "Validation failed", db) else
  match findUnique db.plans (fun p => p.id == req.plan_id) with
  | none => (.err 404 "Plan not found", db)
  | some plan =>
    let serverCount :=
      (db.servers.filter (fun s => s.user_id == uid && !(s.status == "error"))).length
    if 5 ≤ serverCount then
      (.err 403 "Server limit reached (5 max). Delete an existing server to create a new one.", db)
    else
      match pickNode db.nodes with
      | none => (.err 503 "No nodes available", db)
      | some node =>
        let port0 := allocatePort db node.id req.port
        match insertLoop ins 10 0 port0 with
        | .dbError m => (.err 500 m, db)
        | .exhausted => (.err 500 "Failed to allocate a free port after 10 attempts", db)
        | .inserted p =>
          let server := newServerRow newId uid node plan req p
          let db1 : DB := { db with servers := db.servers ++ [server] }
          let db2 : DB := { db1 with nodes := db1.nodes.map (fun n =>
            if n.id == node.id then
              { n with allocated_ram_mb := node.allocated_ram_mb + (plan.ram_mb : Int) }
            else n) }
          if agentOk then
            (.ok server,
             { db2 with server_logs := db2.server_logs ++
                 [{ server_id := server.id, action := "create", triggered_by := uid }] })
          else
            (.err 502 (agentUnreachableMsg node),
             { db2 with servers := db2.servers.map (fun s =>
                 if s.id == server.id then { s with status := "error" } else s) })

/-! ### Delete flow (servers.ts DELETE /:id) -/

/-- DELETE /api/servers/:id.  The agent delete call's outcome (`agentOk`)
is deliberately ignored by the handler ("removing DB record anyway"); the
node's counter is recomputed from a fresh read of `allocated_ram_mb` and
clamped at zero (`Math.max(0, fresh - ram)`). -/
def deleteServer (db : DB) (uid serverId : Nat) (agentOk : Bool) :
    Resp Unit × DB :=
  match findUnique db.servers (fun s => s.id == serverId && s.user_id == uid) with
  | none => (.err 404 "Server not found", db)
  | some server =>
    if server.status == "running" || server.status == "starting" then
      (.err 409 "Stop the server before deleting it", db)
    else
      match findUnique db.nodes (fun n => n.id == server.node_id) with
      | none => (.err 500 "Internal error", db)
      | some freshNode =>
        let _ := agentOk
        let db1 : DB := { db with nodes := db.nodes.map (fun n =>
          if n.id == server.node_id then
            { n with allocated_ram_mb :=
                Max.max 0 (freshNode.allocated_ram_mb - (server.ram_mb : Int)) }
          else n) }
        let db2 : DB :=
          { db1 with servers := db1.servers.filter (fun s => !(s.id == server.id)) }
        (.ok (), db2)

/-! ### Power actions (servers.ts POST /:id/{start,stop,restart}) -/

inductive PowerAction where
  | start
  | stop
  | restart
deriving DecidableEq, Repr

def powerActionName : PowerAction → String
  | .start => "start"
  | .stop => "stop"
  | .restart => "restart"

/-- `action === 'stop' ? 'stopping' : 'starting'`. -/
def powerStatus : PowerAction → String
  | .stop => "stopping"
  | _ => "starting"

/-- POST /api/servers/:id/{start,stop,restart}.  Returns the reply, the
updated store, and whether the agent endpoint was called at all. -/
def powerAction (db : DB) (uid serverId : Nat) (action : PowerAction)
    (agentOk : Bool) : Resp Unit × DB × Bool :=
  match findUnique db.servers (fun s => s.id == serverId && s.user_id == uid) with
  | none => (.err 404 "Server not found", db, false)
  | some server =>
    if server.status == "suspended" then
      (.err 403 "Server is suspended", db, false)
    else
      match findUnique db.nodes (fun n => n.id == server.node_id) with
      | none => (.err 500 "Internal error", db, false)
      | some _node =>
        if !agentOk then
          (.err 502 "Agent unreachable — try again shortly", db, true)
        else
          let db1 : DB := { db with servers := db.servers.map (fun s =>
            if s.id == server.id then { s with status := powerStatus action } else s) }
          (.ok (),
           { db1 with server_logs := db1.server_logs ++
               [{ server_id := server.id, action := powerActionName action,
                  triggered_by := uid }] },
           true)

/-! ### Status Sync Receiver (internal.ts POST /internal/servers/:id/status) -/

def VALID_STATUSES : List String :=
  ["running", "stopped", "starting", "stopping", "error", "suspended"]

/-- `authHeader?.startsWith('Bearer ')` then `authHeader.slice(7)`, over the
header's character list ("Bearer " is ASCII, so the 7-byte slice is the
7-char drop). -/
def parseBearer (h : String) : Option String :=
  if "Bearer ".data.isPrefixOf h.data then some (String.mk (h.data.drop 7))
  else none

/-- POST /internal/servers/:id/status.  The update is filtered by
`.eq('id', id).eq('node_id', node.id)`; an update matching zero rows is
not an error in Supabase, so the reply is `{ok:true}` regardless of how
many rows matched.  `if (lxc_ip)` is JS truthiness: the empty string does
not update `lxc_ip`. -/
def internalStatus (db : DB) (authHeader : Option String) (serverId : Nat)
    (status : String) (lxc_ip : Option String) : Resp Unit × DB :=
  match authHeader with
  | none => (.err 401 "Unauthorized", db)
  | some h =>
    match parseBearer h with
    | none => (.err 401 "Unauthorized", db)
    | some token =>
      match findUnique db.nodes (fun n => n.agent_token == token) with
      | none => (.err 401 "Invalid agent token", db)
      | some node =>
        if !VALID_STATUSES.contains status then
          (.err 400 ("Invalid status: " ++ status), db)
        else
          (.ok (),
           { db with servers := db.servers.map (fun s =>
               if s.id == serverId && s.node_id == node.id then
                 { s with status := status,
                          lxc_ip :=
                            match lxc_ip with
                            | some ip => if ip == "" then s.lxc_ip else some ip
                            | none => s.lxc_ip }
               else s) })

/-! ### Account deletion (account.ts DELETE /) -/

/-- DELETE /api/account: delete every server row of the user (no status
check, no node-counter update), then call the admin API (`adminOk`). -/
def accountDelete (db : DB) (uid : Nat) (adminOk : Bool) : Resp Unit × DB :=
  let db1 : DB := { db with servers := db.servers.filter (fun s => !(s.user_id == uid)) }
  if adminOk then (.ok (), db1) else (.err 500 "User deletion failed", db1)

/-! ### Console WebSocket session (servers.ts GET /:id/console) -/

/-- The first client frame, after `JSON.parse(raw)`: either the parse
threw, or it produced an object whose `token` field may be absent. -/
inductive FirstFrame where
  | malformed
  | parsed (token : Option String)
deriving DecidableEq, Repr

/-- Observable actions of the console handler on receipt of the first
client frame. -/
inductive ConsoleEffect where
  | sendError (msg : String)
  | closeInbound
  | openAgent (url : String)
deriving DecidableEq, Repr

def agentWsUrl (node : Node) (serverId : Nat) : String :=
  "ws://" ++ node.ip ++ ":" ++ toString node.agent_port ++ "/servers/" ++
    toString serverId ++ "/console?token=" ++ node.agent_token

/-- The `socket.once('message', ...)` handler: `deny` = send an error frame
then close; the agent-side WebSocket is opened only after all auth checks
pass.  `getUser` is the Supabase JWT verification oracle.  `if (!token)`
is JS truthiness, so an empty-string token is also denied as missing. -/
def consoleFirstMessage (db : DB) (serverId : Nat) (frame : FirstFrame)
    (getUser : String → Option Nat) : List ConsoleEffect :=
  match frame with
  | .malformed => [.sendError "Invalid auth message", .closeInbound]
  | .parsed none => [.sendError "Missing token", .closeInbound]
  | .parsed (some tok) =>
    if tok == "" then [.sendError "Missing token", .closeInbound] else
    match getUser tok with
    | none => [.sendError "Unauthorized", .closeInbound]
    | some uid =>
      match findUnique db.servers (fun s => s.id == serverId && s.user_id == uid) with
      | none => [.sendError "Server not found", .closeInbound]
      | some server =>
        match findUnique db.nodes (fun n => n.id == server.node_id) with
        | none => []
        | some node => [.openAgent (agentWsUrl node serverId)]

/-! ### Derived capacity quantities (spec §8) -/

/-- Sum of `ram_mb` over the servers recorded on a node. -/
def ramOnNode (db : DB) (nodeId : Nat) : Int :=
  ((db.servers.filter (fun s => s.node_id == nodeId)).map
    (fun s => (s.ram_mb : Int))).sum

/-- A node's `allocated_ram_mb` counter (0 if the node row is absent). -/
def nodeAllocated (db : DB) (nodeId : Nat) : Int :=
  match findUnique db.nodes (fun n => n.id == nodeId) with
  | some n => n.allocated_ram_mb
  | none => 0

/-! ### Concrete fixtures for witnesses and counterexamples -/

def planActive : Plan :=
  { id := 1, name := "basic", price_cents := 100, ram_mb := 1024,
    cpu_limit := 2, disk_gb := 10, is_active := true }

/-- An existing but deactivated catalog row. -/
def planInactive : Plan :=
  { id := 1, name := "basic", price_cents := 100, ram_mb := 1024,
    cpu_limit := 2, disk_gb := 10, is_active := false }

def nodeA : Node :=
  { id := 1, ip := "10.0.0.1", agent_port := 8080, agent_token := "tokA",
    status := "online", total_ram_mb := 4096, allocated_ram_mb := 0,
    max_servers := 100 }

def nodeB : Node :=
  { id := 2, ip := "10.0.0.2", agent_port := 8080, agent_token := "tokB",
    status := "online", total_ram_mb := 4096, allocated_ram_mb := 0,
    max_servers := 100 }

def reqStd : CreateReq :=
  { name := "myserver", plan_id := 1, mc_version := "1.21.4",
    server_type := "vanilla", port := none }

def allOk : Nat → InsertOutcome := fun _ => .ok

/-- Empty fleet: one active plan, one empty online node. -/
def db0 : DB :=
  { plans := [planActive], nodes := [nodeA], servers := [], server_logs := [] }

/-- `db0` but the plan is inactive. -/
def dbInactive : DB :=
  { plans := [planInactive], nodes := [nodeA], servers := [],
    server_logs := [] }

/-- A server of user 7 sitting on node A, in a given status. -/
def srvOnA (id : Nat) (status : String) : Server :=
  { id := id, user_id := 7, node_id := 1, plan_id := 1, name := "srv",
    port := 25565 + id, ram_mb := 1024, cpu_limit := 2, disk_gb := 10,
    mc_version := "1.21.4", server_type := "vanilla", status := status,
    lxc_ip := none }

/-- Two nodes; server 10 belongs to node A. -/
def dbTwoNodes : DB :=
  { plans := [planActive], nodes := [nodeA, nodeB],
    servers := [srvOnA 10 "stopped"], server_logs := [] }

/-- State reached from `db0` by a successful create (row 100, port 25565,
node A reserves 1024 MB) followed by a watchdog sync to `running`. -/
def dbRunning : DB :=
  (internalStatus (createServer db0 7 reqStd allOk true 100).2
    (some "Bearer tokA") 100 "running" none).2

/-- A server on node 1 occupying a given port. -/
def srvAtPort (p : Nat) : Server :=
  { id := p, user_id := 1, node_id := 1, plan_id := 1, name := "srv",
    port := p, ram_mb := 0, cpu_limit := 0, disk_gb := 0,
    mc_version := "1.21.4", server_type := "vanilla", status := "stopped",
    lxc_ip := none }

/-- A node whose servers occupy every port from 25565 through 65535
(39971 ports): a consistent store — all ports distinct and in range. -/
def dbFullPorts : DB :=
  { plans := [planActive], nodes := [nodeA],
    servers := (List.range' 25565 39971).map srvAtPort, server_logs := [] }

/-- Five non-error servers owned by user 7. -/
def dbAtLimit : DB :=
  { plans := [planActive], nodes := [nodeA],
    servers := [srvOnA 11 "running", srvOnA 12 "stopped", srvOnA 13 "installing",
                srvOnA 14 "stopped", srvOnA 15 "suspended"],
    server_logs := [] }

/-! ### Helper lemmas -/

theorem probePort_ge (fuel : Nat) : ∀ (taken : List Nat) (p : Nat),
    p ≤ probePort fuel taken p := by
  induction fuel with
  | zero => intro taken p; exact le_refl p
  | succ fuel ih =>
    intro taken p
    rw [probePort]
    by_cases h : taken.contains p
    · rw [if_pos h]
      exact le_trans (Nat.le_succ p) (ih _ _)
    · rw [if_neg h]

theorem probePort_not_mem (fuel : Nat) : ∀ (taken : List Nat) (p : Nat),
    taken.length ≤ fuel → probePort fuel taken p ∉ taken := by
  induction fuel with
  | zero =>
    intro taken p hlen
    have : taken = [] := List.eq_nil_of_length_eq_zero (Nat.le_zero.mp hlen)
    subst this
    simp [probePort]
  | succ fuel ih =>
    intro taken p hlen
    rw [probePort]
    by_cases h : taken.contains p
    · rw [if_pos h]
      simp only [List.contains, List.elem_iff] at h
      intro hmem
      have hge : p + 1 ≤ probePort fuel (taken.erase p) (p + 1) := probePort_ge _ _ _
      have hne : probePort fuel (taken.erase p) (p + 1) ≠ p := by omega
      have herase : (taken.erase p).length ≤ fuel := by
        have := List.length_erase_of_mem h
        have := List.length_pos_of_mem h
        omega
      exact ih _ _ herase ((List.mem_erase_of_ne hne).mpr hmem)
    · rw [if_neg h]
      simpa [List.contains, List.elem_iff] using h

theorem probePort_free (fuel : Nat) (taken : List Nat) (p : Nat)
    (h : p ∉ taken) : probePort fuel taken p = p := by
  cases fuel with
  | zero => rfl
  | succ fuel =>
    rw [probePort, if_neg (by simp [List.contains, List.elem_iff, h])]

theorem map_id_of_eq {α : Type} (l : List α) (f : α → α)
    (h : ∀ x ∈ l, f x = x) : l.map f = l := by
  induction l with
  | nil => rfl
  | cons a l ih =>
    simp only [List.map_cons, h a (by simp)]
    rw [ih (fun x hx => h x (by simp [hx]))]

/-- The probe walks straight past a contiguous block of taken ports. -/
theorem probePort_range' (n : Nat) : ∀ a : Nat,
    probePort n (List.range' a n) a = a + n := by
  induction n with
  | zero => intro a; rfl
  | succ n ih =>
    intro a
    rw [List.range'_succ, probePort,
      if_pos (by simp), List.erase_cons_head, ih (a + 1)]
    omega

/-- If every attempt up to exhaustion hits the uniqueness constraint, the
loop ends in `exhausted`. -/
theorem insertLoop_exhausted_of_collisions (ins : Nat → InsertOutcome) :
    ∀ (remaining attempts port : Nat),
    (∀ j, j < remaining → ins (attempts + j) = .uniqueViolation) →
    insertLoop ins remaining attempts port = .exhausted := by
  intro remaining
  induction remaining with
  | zero => intro attempts port _; rfl
  | succ r ih =>
    intro attempts port h
    have h0 : ins attempts = .uniqueViolation := by
      simpa using h 0 (Nat.succ_pos r)
    rw [insertLoop, h0]
    exact ih (attempts + 1) (port + 1) (fun j hj => by
      have hv := h (j + 1) (by omega)
      have heq : attempts + (j + 1) = attempts + 1 + j := by omega
      rwa [heq] at hv)

/-- If the first `k` attempts collide and attempt `k` succeeds (within the
bound), the loop inserts at the start port incremented `k` times. -/
theorem insertLoop_ok_after (ins : Nat → InsertOutcome) :
    ∀ (k remaining attempts port : Nat), k < remaining →
    (∀ j, j < k → ins (attempts + j) = .uniqueViolation) →
    ins (attempts + k) = .ok →
    insertLoop ins remaining attempts port = .inserted (port + k) := by
  intro k
  induction k with
  | zero =>
    intro remaining attempts port hlt _ hok
    match remaining, hlt with
    | r + 1, _ =>
      have hok' : ins attempts = .ok := by simpa using hok
      rw [insertLoop, hok']
      rfl
  | succ k ih =>
    intro remaining attempts port hlt hcoll hok
    match remaining, hlt with
    | r + 1, _ =>
      have h0 : ins attempts = .uniqueViolation := by
        simpa using hcoll 0 (by omega)
      rw [insertLoop, h0]
      have hcoll' : ∀ j, j < k → ins (attempts + 1 + j) = .uniqueViolation := by
        intro j hj
        have hv := hcoll (j + 1) (by omega)
        have heq : attempts + (j + 1) = attempts + 1 + j := by omega
        rwa [heq] at hv
      have hok' : ins (attempts + 1 + k) = .ok := by
        have heq : attempts + (k + 1) = attempts + 1 + k := by omega
        rwa [heq] at hok
      have := ih r (attempts + 1) (port + 1) (by omega) hcoll' hok'
      rw [this]
      have heq : port + 1 + k = port + (k + 1) := by omega
      rw [heq]

/-- If the first `k` attempts collide and attempt `k` fails with a
non-constraint error (within the bound), the loop aborts with that
error. -/
theorem insertLoop_err_after (ins : Nat → InsertOutcome) :
    ∀ (k remaining attempts port : Nat) (m : String), k < remaining →
    (∀ j, j < k → ins (attempts + j) = .uniqueViolation) →
    ins (attempts + k) = .otherError m →
    insertLoop ins remaining attempts port = .dbError m := by
  intro k
  induction k with
  | zero =>
    intro remaining attempts port m hlt _ herr
    match remaining, hlt with
    | r + 1, _ =>
      have herr' : ins attempts = .otherError m := by simpa using herr
      rw [insertLoop, herr']
  | succ k ih =>
    intro remaining attempts port m hlt hcoll herr
    match remaining, hlt with
    | r + 1, _ =>
      have h0 : ins attempts = .uniqueViolation := by
        simpa using hcoll 0 (by omega)
      rw [insertLoop, h0]
      have hcoll' : ∀ j, j < k → ins (attempts + 1 + j) = .uniqueViolation := by
        intro j hj
        have hv := hcoll (j + 1) (by omega)
        have heq : attempts + (j + 1) = attempts + 1 + j := by omega
        rwa [heq] at hv
      have herr' : ins (attempts + 1 + k) = .otherError m := by
        have heq : attempts + (k + 1) = attempts + 1 + k := by omega
        rwa [heq] at herr
      exact ih r (attempts + 1) (port + 1) m (by omega) hcoll' herr'

/-! ## C1 — status sync with a cross-node credential -/

/-- C1 counterexample: the watchdog posts `running` for server 10 (which
belongs to node A) using node B's valid agent credential.  The claim says
the request is rejected with an Unauthorized/ownership-mismatch error;
the handler instead replies `{ok:true}` — the update filtered by
`node_id = B` matches no rows (so the stored status is indeed unchanged),
but no error of any kind is returned. -/
theorem c1_cross_node_not_rejected :
    internalStatus dbTwoNodes (some "Bearer tokB") 10 "running" none =
      (.ok (), dbTwoNodes) ∧
    (internalStatus dbTwoNodes (some "Bearer tokB") 10 "running" none).1 ≠
      .err 401 "Unauthorized" ∧
    (internalStatus dbTwoNodes (some "Bearer tokB") 10 "running" none).1 ≠
      .err 401 "Invalid agent token" := by
  decide

/-- C1 (amended): a status-sync request with the valid credential of node
B, targeting a server that belongs to a different node, leaves every
server row unchanged (the update is scoped by `node_id`), but it is not
rejected: the handler replies `{ok:true}` with no Unauthorized or
ownership-mismatch error. -/
theorem internal_status_cross_node_silent_noop
    (db : DB) (hdr tok st : String) (i : Nat) (ip : Option String)
    (nb : Node)
    (hparse : parseBearer hdr = some tok)
    (hnode : findUnique db.nodes (fun n => n.agent_token == tok) = some nb)
    (hst : VALID_STATUSES.contains st = true)
    (hsrv : ∀ s ∈ db.servers, s.id = i → s.node_id ≠ nb.id) :
    internalStatus db (some hdr) i st ip = (.ok (), db) := by
  have hmap : db.servers.map (fun s =>
      if s.id == i && s.node_id == nb.id then
        { s with status := st,
                 lxc_ip :=
                   match ip with
                   | some p => if p == "" then s.lxc_ip else some p
                   | none => s.lxc_ip }
      else s) = db.servers := by
    apply map_id_of_eq
    intro s hs
    have hcond : (s.id == i && s.node_id == nb.id) = false := by
      by_cases hid : s.id = i
      · have hne := hsrv s hs hid
        simp [hne]
      · simp [hid]
    rw [hcond]
    rfl
  simp only [internalStatus, hparse, hnode, hst, Bool.not_true,
    Bool.false_eq_true, if_false, hmap]

/-- C1 witness for the amended theorem at a concrete state. -/
theorem internal_status_cross_node_silent_noop_witness :
    internalStatus dbTwoNodes (some "Bearer tokB") 10 "stopping" none =
      (.ok (), dbTwoNodes) :=
  internal_status_cross_node_silent_noop dbTwoNodes "Bearer tokB" "tokB"
    "stopping" 10 none nodeB (by decide) (by decide) (by decide) (by decide)

/-! ## C2 — port allocator contract -/

/-- C2 counterexample: on a node whose servers already occupy every port
from 25565 through 65535, the allocator (with no requested port) probes
past the top of the range and returns 65536 — the claim's "the result
never exceeds 65535" fails: the loop has no upper bound. -/
theorem c2_port_can_exceed_65535 :
    allocatePort dbFullPorts 1 none = 65536 ∧
    65535 < allocatePort dbFullPorts 1 none := by
  have htaken : takenPortsOn dbFullPorts 1 = List.range' 25565 39971 := by
    show (((List.range' 25565 39971).map srvAtPort).filter
        (fun s => s.node_id == 1)).map (fun s => s.port) =
      List.range' 25565 39971
    rw [List.filter_eq_self.mpr ?_, List.map_map]
    · exact List.map_id' _
    · intro s hs
      obtain ⟨p, _, rfl⟩ := List.mem_map.mp hs
      rfl
  have h : allocatePort dbFullPorts 1 none = 65536 := by
    show probePort (takenPortsOn dbFullPorts 1).length
      (takenPortsOn dbFullPorts 1) 25565 = 65536
    rw [htaken, List.length_range', probePort_range']
  exact ⟨h, by rw [h]; omega⟩

/-- C2 (amended): the chosen port is never one already bound on the node;
it is at least 1024 (a requested port is schema-validated to
[1024, 65535], and fallback probing starts at 25565); the user-requested
port is used as-is whenever it is not already bound on the node; with no
requested port the result is at least the base 25565.  No upper bound is
enforced: the probe can walk past 65535 (see the counterexample). -/
theorem allocate_port_free_and_lower_bounded
    (db : DB) (nodeId : Nat) (requested : Option Nat)
    (hreq : ∀ r, requested = some r → 1024 ≤ r) :
    allocatePort db nodeId requested ∉ takenPortsOn db nodeId ∧
    1024 ≤ allocatePort db nodeId requested ∧
    (∀ r, requested = some r → r ∉ takenPortsOn db nodeId →
      allocatePort db nodeId requested = r) ∧
    (requested = none → 25565 ≤ allocatePort db nodeId requested) := by
  cases requested with
  | none =>
    have hdef : allocatePort db nodeId none =
        probePort (takenPortsOn db nodeId).length (takenPortsOn db nodeId)
          25565 := rfl
    refine ⟨?_, ?_, ?_, ?_⟩
    · rw [hdef]
      exact probePort_not_mem _ _ _ (le_refl _)
    · rw [hdef]
      have := probePort_ge (takenPortsOn db nodeId).length
        (takenPortsOn db nodeId) 25565
      omega
    · intro r hr
      exact absurd hr (by simp)
    · intro _
      rw [hdef]
      exact probePort_ge _ _ _
  | some r =>
    by_cases hc : (takenPortsOn db nodeId).contains r
    · have hdef : allocatePort db nodeId (some r) =
          probePort (takenPortsOn db nodeId).length (takenPortsOn db nodeId)
            25565 := by
        show probePort _ (takenPortsOn db nodeId)
          (if (takenPortsOn db nodeId).contains r then 25565 else r) = _
        rw [if_pos hc]
      refine ⟨?_, ?_, ?_, ?_⟩
      · rw [hdef]
        exact probePort_not_mem _ _ _ (le_refl _)
      · rw [hdef]
        have := probePort_ge (takenPortsOn db nodeId).length
          (takenPortsOn db nodeId) 25565
        omega
      · intro r' hr' hmem
        cases hr'
        simp only [List.contains, List.elem_iff] at hc
        exact absurd hc hmem
      · intro h
        exact absurd h (by simp)
    · have hmem : r ∉ takenPortsOn db nodeId := by
        simpa [List.contains, List.elem_iff] using hc
      have hdef : allocatePort db nodeId (some r) = r := by
        show probePort _ (takenPortsOn db nodeId)
          (if (takenPortsOn db nodeId).contains r then 25565 else r) = _
        rw [if_neg hc]
        exact probePort_free _ _ _ hmem
      refine ⟨?_, ?_, ?_, ?_⟩
      · rw [hdef]; exact hmem
      · rw [hdef]; exact hreq r rfl
      · intro r' hr' _
        cases hr'
        exact hdef
      · intro h
        exact absurd h (by simp)

/-- C2 witness for the amended theorem: a free requested port on a node
with one existing server is returned as-is. -/
theorem allocate_port_free_and_lower_bounded_witness :
    allocatePort dbTwoNodes 1 (some 30000) ∉ takenPortsOn dbTwoNodes 1 ∧
    1024 ≤ allocatePort dbTwoNodes 1 (some 30000) :=
  have h := allocate_port_free_and_lower_bounded dbTwoNodes 1 (some 30000)
    (fun r hr => by cases hr; decide)
  ⟨h.1, h.2.1⟩

/-! ## C3 — plan resolution on create -/

/-- C3 counterexample: a create referencing an existing but *inactive*
plan does not fail — the create flow's plan query has no `is_active`
filter (unlike the plan-change route), so the request proceeds all the
way to a successful 201. -/
theorem c3_inactive_plan_not_rejected :
    planInactive.is_active = false ∧
    (createServer dbInactive 7 reqStd allOk true 100).1 ≠
      .err 404 "Plan not found" ∧
    (createServer dbInactive 7 reqStd allOk true 100).1 =
      .ok (newServerRow 100 7 nodeA planInactive reqStd 25565) := by
  decide

/-- C3 (amended): only a *missing* plan id is rejected with `Plan not
found` (before any allocation or durable write — the store is returned
unchanged); a plan that exists is never rejected for being inactive. -/
theorem create_plan_missing_only
    (db : DB) (uid : Nat) (req : CreateReq) (ins : Nat → InsertOutcome)
    (agentOk : Bool) (newId : Nat)
    (hval : validCreateReq req = true) :
    (findUnique db.plans (fun p => p.id == req.plan_id) = none →
      createServer db uid req ins agentOk newId =
        (.err 404 "Plan not found", db)) ∧
    (∀ plan, findUnique db.plans (fun p => p.id == req.plan_id) = some plan →
      (createServer db uid req ins agentOk newId).1 ≠
        .err 404 "Plan not found") := by
  constructor
  · intro hplan
    simp [createServer, hval, hplan]
  · intro plan hplan
    simp only [createServer, hval, hplan, Bool.not_true, Bool.false_eq_true,
      if_false]
    split
    · simp
    · split
      · simp
      · split
        · simp
        · simp
        · split <;> simp

/-- C3 witness for the amended theorem: a plan id matching no catalog row
is rejected with `Plan not found` and the store is untouched. -/
theorem create_plan_missing_only_witness :
    createServer db0 7
      { name := "myserver", plan_id := 99, mc_version := "1.21.4",
        server_type := "vanilla", port := none } allOk true 100 =
      (.err 404 "Plan not found", db0) :=
  (create_plan_missing_only db0 7
    { name := "myserver", plan_id := 99, mc_version := "1.21.4",
      server_type := "vanilla", port := none } allOk true 100
    (by decide)).1 (by decide)

/-! ## C4 — account deletion ignores status and capacity -/

/-- C4: `DELETE /api/account` removes every server row of the requesting
user regardless of status (including `running`/`starting`) and never
touches the nodes table, so a node's `allocated_ram_mb` can afterwards
exceed the total `ram_mb` of the servers still recorded on it.  The
concrete part reaches such a state through the real flows: a create on an
empty node (reserving 1024 MB) followed by a watchdog sync to `running`
and then account deletion leaves `allocated_ram_mb = 1024` with no
servers left on the node. -/
theorem account_delete_keeps_allocation :
    (∀ (db : DB) (uid : Nat) (adminOk : Bool),
      (accountDelete db uid adminOk).2.nodes = db.nodes ∧
      (∀ s ∈ db.servers, s.user_id = uid →
        s ∉ (accountDelete db uid adminOk).2.servers) ∧
      (∀ s ∈ db.servers, s.user_id ≠ uid →
        s ∈ (accountDelete db uid adminOk).2.servers)) ∧
    (dbRunning.servers.map (fun s => s.status) = ["running"] ∧
     (accountDelete dbRunning 7 true).2.servers = [] ∧
     nodeAllocated (accountDelete dbRunning 7 true).2 1 = 1024 ∧
     ramOnNode (accountDelete dbRunning 7 true).2 1 = 0 ∧
     ramOnNode (accountDelete dbRunning 7 true).2 1 <
       nodeAllocated (accountDelete dbRunning 7 true).2 1) := by
  constructor
  · intro db uid adminOk
    refine ⟨?_, ?_, ?_⟩
    · cases adminOk <;> rfl
    · intro s hs hu
      cases adminOk <;> simp [accountDelete, List.mem_filter, hu]
    · intro s hs hu
      cases adminOk <;> simp [accountDelete, List.mem_filter, hs, hu]
  · decide

/-- C4 witness: the concrete run — nodes untouched, all of user 7's
servers gone. -/
theorem account_delete_keeps_allocation_witness :
    (accountDelete dbRunning 7 true).2.nodes = dbRunning.nodes ∧
    (accountDelete dbRunning 7 true).2.servers = [] :=
  ⟨(account_delete_keeps_allocation.1 dbRunning 7 true).1,
   account_delete_keeps_allocation.2.2.1⟩

/-! ## C5 — bounded port-collision retry -/

/-- C5: in the create flow, each uniqueness-constraint collision (and only
that conflict kind) bumps the candidate port and retries; ten consecutive
collisions exhaust the bound and fail with the port-allocation-exhausted
error (store unchanged); a non-constraint insert failure aborts the
request immediately with that error; and an insert that succeeds after
`k < 10` collisions lands on the initial candidate port incremented `k`
times. -/
theorem create_port_retry_bounded
    (db : DB) (uid : Nat) (req : CreateReq) (ins : Nat → InsertOutcome)
    (agentOk : Bool) (newId : Nat) (plan : Plan) (node : Node)
    (hval : validCreateReq req = true)
    (hplan : findUnique db.plans (fun p => p.id == req.plan_id) = some plan)
    (hcount : (db.servers.filter
        (fun s => s.user_id == uid && !(s.status == "error"))).length < 5)
    (hnode : pickNode db.nodes = some node) :
    ((∀ j, j < 10 → ins j = .uniqueViolation) →
      createServer db uid req ins agentOk newId =
        (.err 500 "Failed to allocate a free port after 10 attempts", db)) ∧
    (∀ k m, k < 10 → (∀ j, j < k → ins j = .uniqueViolation) →
      ins k = .otherError m →
      createServer db uid req ins agentOk newId = (.err 500 m, db)) ∧
    (∀ k, k < 10 → (∀ j, j < k → ins j = .uniqueViolation) → ins k = .ok →
      agentOk = true →
      (createServer db uid req ins agentOk newId).1 =
        .ok (newServerRow newId uid node plan req
          (allocatePort db node.id req.port + k))) := by
  have hc5 : ¬ 5 ≤ (db.servers.filter
      (fun s => s.user_id == uid && !(s.status == "error"))).length := by
    omega
  refine ⟨?_, ?_, ?_⟩
  · intro hall
    have hloop := insertLoop_exhausted_of_collisions ins 10 0
      (allocatePort db node.id req.port)
      (fun j hj => by simpa using hall j hj)
    simp [createServer, hval, hplan, hc5, hnode, hloop]
  · intro k m hk hcoll herr
    have hloop := insertLoop_err_after ins k 10 0
      (allocatePort db node.id req.port) m hk
      (fun j hj => by simpa using hcoll j hj) (by simpa using herr)
    simp [createServer, hval, hplan, hc5, hnode, hloop]
  · intro k hk hcoll hok hA
    subst hA
    have hloop := insertLoop_ok_after ins k 10 0
      (allocatePort db node.id req.port) hk
      (fun j hj => by simpa using hcoll j hj) (by simpa using hok)
    simp [createServer, hval, hplan, hc5, hnode, hloop]

/-- C5 witness: on the empty fleet, an oracle in which every insert
attempt hits the uniqueness constraint makes the create fail with the
exhaustion error after the 10 bounded attempts. -/
theorem create_port_retry_bounded_witness :
    createServer db0 7 reqStd (fun _ => .uniqueViolation) true 100 =
      (.err 500 "Failed to allocate a free port after 10 attempts", db0) :=
  (create_port_retry_bounded db0 7 reqStd (fun _ => .uniqueViolation) true
    100 planActive nodeA (by decide) (by decide) (by decide) (by decide)).1
    (fun _ _ => rfl)

/-! ## C6 — delete guard and capacity release -/

/-- C6: deleting an owned server is rejected with the 409 Conflict iff its
status is `running` or `starting` (store untouched); in every other
status it succeeds, removing the row and setting the owning node's
`allocated_ram_mb` to `max 0 (current - ram_mb)` — the value re-read at
delete time, decreased by exactly the server's `ram_mb` and clamped at
zero. -/
theorem delete_server_conflict_iff_active
    (db : DB) (uid serverId : Nat) (agentOk : Bool) (server : Server)
    (node : Node)
    (hsrv : findUnique db.servers
      (fun s => s.id == serverId && s.user_id == uid) = some server)
    (hnode : findUnique db.nodes
      (fun n => n.id == server.node_id) = some node) :
    ((server.status = "running" ∨ server.status = "starting") →
      deleteServer db uid serverId agentOk =
        (.err 409 "Stop the server before deleting it", db)) ∧
    (server.status ≠ "running" → server.status ≠ "starting" →
      deleteServer db uid serverId agentOk =
        (.ok (),
         { db with
             nodes := db.nodes.map (fun n =>
               if n.id == server.node_id then
                 { n with allocated_ram_mb :=
                     Max.max 0 (node.allocated_ram_mb - (server.ram_mb : Int)) }
               else n),
             servers := db.servers.filter (fun s => !(s.id == server.id)) })) := by
  constructor
  · intro h
    have hcond : (server.status == "running" || server.status == "starting")
        = true := by
      rcases h with h | h <;> simp [h]
    simp [deleteServer, hsrv, hcond]
  · intro h1 h2
    have hcond : (server.status == "running" || server.status == "starting")
        = false := by
      simp [h1, h2]
    simp [deleteServer, hsrv, hcond, hnode]

/-- C6 witness: deleting the stopped server 10 succeeds and releases its
RAM from node A (clamped at zero). -/
theorem delete_server_conflict_iff_active_witness :
    deleteServer dbTwoNodes 7 10 true =
      (.ok (), { plans := [planActive], nodes := [nodeA, nodeB],
                 servers := [], server_logs := [] }) := by
  have h := (delete_server_conflict_iff_active dbTwoNodes 7 10 true
    (srvOnA 10 "stopped") nodeA (by decide) (by decide)).2
    (by decide) (by decide)
  rw [h]
  decide

/-! ## C7 — agent failure after the durable insert -/

/-- C7: when the agent provisioning call fails after the insert, the
caller gets the 502 agent-unreachable reply, the inserted row remains
present with status `error` (the row count grows by one — nothing is
deleted), and the node's RAM reservation is kept, not rolled back. -/
theorem create_agent_failure_preserves_row
    (db : DB) (uid : Nat) (req : CreateReq) (ins : Nat → InsertOutcome)
    (newId : Nat) (plan : Plan) (node : Node)
    (hval : validCreateReq req = true)
    (hplan : findUnique db.plans (fun p => p.id == req.plan_id) = some plan)
    (hcount : (db.servers.filter
        (fun s => s.user_id == uid && !(s.status == "error"))).length < 5)
    (hnode : pickNode db.nodes = some node)
    (hins : ins 0 = .ok) :
    (createServer db uid req ins false newId).1 =
      .err 502 (agentUnreachableMsg node) ∧
    { newServerRow newId uid node plan req
        (allocatePort db node.id req.port) with status := "error" } ∈
      (createServer db uid req ins false newId).2.servers ∧
    (createServer db uid req ins false newId).2.servers.length =
      db.servers.length + 1 ∧
    (createServer db uid req ins false newId).2.nodes =
      db.nodes.map (fun n =>
        if n.id == node.id then
          { n with allocated_ram_mb :=
              node.allocated_ram_mb + (plan.ram_mb : Int) }
        else n) := by
  have hc5 : ¬ 5 ≤ (db.servers.filter
      (fun s => s.user_id == uid && !(s.status == "error"))).length := by
    omega
  have hloop : insertLoop ins 10 0 (allocatePort db node.id req.port) =
      .inserted (allocatePort db node.id req.port) := by
    simpa using insertLoop_ok_after ins 0 10 0
      (allocatePort db node.id req.port) (by omega)
      (fun j hj => absurd hj (by omega)) (by simpa using hins)
  refine ⟨?_, ?_, ?_, ?_⟩
  · simp [createServer, hval, hplan, hc5, hnode, hloop]
  · simp only [createServer, hval, hplan, hc5, hnode, hloop,
      Bool.not_true, Bool.false_eq_true, if_false]
    refine List.mem_map.mpr
      ⟨newServerRow newId uid node plan req (allocatePort db node.id req.port),
       by simp, ?_⟩
    simp
  · simp [createServer, hval, hplan, hc5, hnode, hloop]
  · simp [createServer, hval, hplan, hc5, hnode, hloop]

/-- C7 witness: the concrete empty-fleet create whose agent call fails. -/
theorem create_agent_failure_preserves_row_witness :
    (createServer db0 7 reqStd allOk false 100).1 =
      .err 502 (agentUnreachableMsg nodeA) ∧
    { newServerRow 100 7 nodeA planActive reqStd
        (allocatePort db0 1 reqStd.port) with status := "error" } ∈
      (createServer db0 7 reqStd allOk false 100).2.servers :=
  have h := create_agent_failure_preserves_row db0 7 reqStd allOk 100
    planActive nodeA (by decide) (by decide) (by decide) (by decide) rfl
  ⟨h.1, h.2.1⟩

/-! ## C8 — power action guards -/

/-- C8: a power action on an owned server is rejected with the 403
suspended error — without calling the agent — when the status is
`suspended`; when the agent call fails the caller gets the 502 reply and
the store (hence the stored status) is unchanged; only after a confirmed
agent call is the status set via `powerStatus` — `stopping` for stop and
`starting` for start/restart. -/
theorem power_action_guards
    (db : DB) (uid serverId : Nat) (action : PowerAction) (agentOk : Bool)
    (server : Server) (node : Node)
    (hsrv : findUnique db.servers
      (fun s => s.id == serverId && s.user_id == uid) = some server)
    (hnode : findUnique db.nodes
      (fun n => n.id == server.node_id) = some node) :
    (server.status = "suspended" →
      powerAction db uid serverId action agentOk =
        (.err 403 "Server is suspended", db, false)) ∧
    (server.status ≠ "suspended" → agentOk = false →
      powerAction db uid serverId action agentOk =
        (.err 502 "Agent unreachable — try again shortly", db, true)) ∧
    (server.status ≠ "suspended" → agentOk = true →
      (powerAction db uid serverId action agentOk).1 = .ok () ∧
      (powerAction db uid serverId action agentOk).2.1.servers =
        db.servers.map (fun s =>
          if s.id == server.id then { s with status := powerStatus action }
          else s)) ∧
    (powerStatus .stop = "stopping" ∧ powerStatus .start = "starting" ∧
     powerStatus .restart = "starting") := by
  refine ⟨?_, ?_, ?_, by decide⟩
  · intro h
    simp [powerAction, hsrv, h]
  · intro h hA
    subst hA
    simp [powerAction, hsrv, h, hnode]
  · intro h hA
    subst hA
    constructor <;> simp [powerAction, hsrv, h, hnode]

/-- C8 witness: an agent failure on a non-suspended server returns the 502
reply and leaves the store untouched. -/
theorem power_action_guards_witness :
    powerAction dbTwoNodes 7 10 .start false =
      (.err 502 "Agent unreachable — try again shortly", dbTwoNodes, true) :=
  (power_action_guards dbTwoNodes 7 10 .start false (srvOnA 10 "stopped")
    nodeA (by decide) (by decide)).2.1 (by decide) rfl

/-! ## C9 — per-user server ceiling -/

/-- C9: once the plan resolves, a user whose non-error server count is at
least 5 always gets the 403 limit error with the store unchanged — for
every insert oracle, agent outcome and node pool, i.e. regardless of
node or port availability (the check precedes node selection and port
allocation); below the ceiling — with `error`-status servers excluded
from the count — the limit error is never returned. -/
theorem create_server_limit
    (db : DB) (uid : Nat) (req : CreateReq) (ins : Nat → InsertOutcome)
    (agentOk : Bool) (newId : Nat) (plan : Plan)
    (hval : validCreateReq req = true)
    (hplan : findUnique db.plans (fun p => p.id == req.plan_id) = some plan) :
    (5 ≤ (db.servers.filter
        (fun s => s.user_id == uid && !(s.status == "error"))).length →
      createServer db uid req ins agentOk newId =
        (.err 403 "Server limit reached (5 max). Delete an existing server to create a new one.", db)) ∧
    ((db.servers.filter
        (fun s => s.user_id == uid && !(s.status == "error"))).length < 5 →
      (createServer db uid req ins agentOk newId).1 ≠
        .err 403 "Server limit reached (5 max). Delete an existing server to create a new one.") := by
  constructor
  · intro h
    simp [createServer, hval, hplan, h]
  · intro h
    have hc5 : ¬ 5 ≤ (db.servers.filter
        (fun s => s.user_id == uid && !(s.status == "error"))).length := by
      omega
    simp only [createServer, hval, hplan, hc5, Bool.not_true,
      Bool.false_eq_true, if_false]
    split
    · simp
    · split
      · simp
      · simp
      · split <;> simp

/-- C9 witness: user 7 holds five non-error servers, and the create is
rejected with the limit error even though the node has capacity and every
port is free. -/
theorem create_server_limit_witness :
    createServer dbAtLimit 7 reqStd allOk true 100 =
      (.err 403 "Server limit reached (5 max). Delete an existing server to create a new one.",
       dbAtLimit) :=
  (create_server_limit dbAtLimit 7 reqStd allOk true 100 planActive
    (by decide) (by decide)).1 (by decide)

/-! ## C10 — console session: malformed first frame -/

/-- C10: when the first client frame is not well-formed JSON carrying a
token (it fails to parse, or parses with no `token` field), the handler
emits exactly an error frame followed by a close of the inbound socket,
and never opens the agent-side connection. -/
theorem console_auth_failure_closes_before_agent
    (db : DB) (serverId : Nat) (frame : FirstFrame)
    (getUser : String → Option Nat)
    (hframe : frame = .malformed ∨ frame = .parsed none) :
    (consoleFirstMessage db serverId frame getUser =
       [.sendError "Invalid auth message", .closeInbound] ∨
     consoleFirstMessage db serverId frame getUser =
       [.sendError "Missing token", .closeInbound]) ∧
    (∀ url, ConsoleEffect.openAgent url ∉
      consoleFirstMessage db serverId frame getUser) := by
  rcases hframe with h | h <;> subst h
  · exact ⟨Or.inl rfl, fun url => by simp [consoleFirstMessage]⟩
  · exact ⟨Or.inr rfl, fun url => by simp [consoleFirstMessage]⟩

/-- C10 witness: a malformed first frame on the concrete store. -/
theorem console_auth_failure_closes_before_agent_witness :
    consoleFirstMessage dbTwoNodes 10 .malformed (fun _ => some 7) =
      [.sendError "Invalid auth message", .closeInbound] ∨
    consoleFirstMessage dbTwoNodes 10 .malformed (fun _ => some 7) =
      [.sendError "Missing token", .closeInbound] :=
  (console_auth_failure_closes_before_agent dbTwoNodes 10 .malformed
    (fun _ => some 7) (Or.inl rfl)).1

end Minetopia
